import Mathlib

/-!
Verification of the error-handling demo repository (src/main.rs, src/result_demo.rs).

The development shallowly embeds the Rust code: `Result<T, E>` becomes the
inductive `RustResult`, the custom error enum `DemoError` is embedded with its
`Display`, `Error::source` and `From` implementations, integer parsing follows
`from_str_radix` for the relevant widths, and the file system is an explicit
map from paths to optional contents.
-/

/-- Rust's `Result<T, E>`: `Ok` holds a success value, `Err` a failure value. -/
inductive RustResult (α ε : Type) where
  | ok : α → RustResult α ε
  | err : ε → RustResult α ε
deriving DecidableEq, Repr

namespace RustResult

/-- `Result::is_ok`. -/
def isOk : RustResult α ε → Bool
  | .ok _ => true
  | .err _ => false

/-- `Result::is_err`. -/
def isErr : RustResult α ε → Bool
  | .ok _ => false
  | .err _ => true

/-- `Result::unwrap_or`. -/
def unwrapOr (r : RustResult α ε) (default : α) : α :=
  match r with
  | .ok v => v
  | .err _ => default

/-- `Result::map`: apply `f` to the success payload, pass failure through. -/
def map (f : α → β) : RustResult α ε → RustResult β ε
  | .ok v => .ok (f v)
  | .err e => .err e

/-- `Result::map_err`: apply `f` to the failure payload, pass success through. -/
def mapErr (f : ε → φ) : RustResult α ε → RustResult α φ
  | .ok v => .ok v
  | .err e => .err (f e)

/-- `Result::and_then`: chain a dependent fallible step. -/
def andThen (r : RustResult α ε) (f : α → RustResult β ε) : RustResult β ε :=
  match r with
  | .ok v => f v
  | .err e => .err e

end RustResult

/-- `std::io::Error`, kept abstract up to its `Display` text (the code only
constructs it, displays it, and wraps it). -/
structure IoError where
  msg : String
deriving DecidableEq, Repr

/-- `Display` of an `io::Error` built from a message: the message itself. -/
def IoError.describe (e : IoError) : String := e.msg

/-- `std::num::IntErrorKind`: the failure causes of integer parsing. -/
inductive IntErrorKind where
  | empty
  | invalidDigit
  | posOverflow
  | negOverflow
deriving DecidableEq, Repr

/-- `std::num::ParseIntError`. -/
structure ParseIntError where
  kind : IntErrorKind
deriving DecidableEq, Repr

/-- `Display` of a `ParseIntError` (the std description strings). -/
def ParseIntError.describe : ParseIntError → String
  | ⟨.empty⟩ => "cannot parse integer from empty string"
  | ⟨.invalidDigit⟩ => "invalid digit found in string"
  | ⟨.posOverflow⟩ => "number too large to fit in target type"
  | ⟨.negOverflow⟩ => "number too small to fit in target type"

/-- `char::to_digit(10)`. -/
def digitVal (c : Char) : Option Nat :=
  if '0' ≤ c ∧ c ≤ '9' then some (c.toNat - '0'.toNat) else none

/-- Digit-accumulation loop of `u32::from_str_radix` (radix 10): multiply by
ten, add the digit, fail with `PosOverflow` past `hi` (checked arithmetic). -/
def accumU (hi : Nat) : List Char → Nat → RustResult Nat ParseIntError
  | [], acc => .ok acc
  | c :: cs, acc =>
    match digitVal c with
    | none => .err ⟨.invalidDigit⟩
    | some d =>
      let acc' := acc * 10 + d
      if hi < acc' then .err ⟨.posOverflow⟩ else accumU hi cs acc'

/-- `str::parse::<u32>`: empty input fails with `Empty`, a bare sign with
`InvalidDigit`, a leading `+` is stripped, a leading `-` is rejected as an
invalid digit (unsigned type), then the digit loop runs. -/
def parseU32 (s : String) : RustResult Nat ParseIntError :=
  match s.toList with
  | [] => .err ⟨.empty⟩
  | ['+'] => .err ⟨.invalidDigit⟩
  | '+' :: rest => accumU (2 ^ 32 - 1) rest 0
  | cs => accumU (2 ^ 32 - 1) cs 0

/-- Digit-accumulation loop of `i32::from_str_radix` (radix 10): the negative
branch subtracts each digit (checked), the positive branch adds it. -/
def accumI (neg : Bool) : List Char → Int → RustResult Int ParseIntError
  | [], acc => .ok acc
  | c :: cs, acc =>
    match digitVal c with
    | none => .err ⟨.invalidDigit⟩
    | some d =>
      if neg then
        let acc' := acc * 10 - (d : Int)
        if acc' < -(2 ^ 31 : Int) then .err ⟨.negOverflow⟩
        else accumI neg cs acc'
      else
        let acc' := acc * 10 + (d : Int)
        if (2 ^ 31 - 1 : Int) < acc' then .err ⟨.posOverflow⟩
        else accumI neg cs acc'

/-- `str::parse::<i32>`: empty input fails with `Empty`, a bare sign with
`InvalidDigit`, a leading sign selects the branch of the digit loop. -/
def parseI32 (s : String) : RustResult Int ParseIntError :=
  match s.toList with
  | [] => .err ⟨.empty⟩
  | ['+'] => .err ⟨.invalidDigit⟩
  | ['-'] => .err ⟨.invalidDigit⟩
  | '+' :: rest => accumI false rest 0
  | '-' :: rest => accumI true rest 0
  | cs => accumI false cs 0

/-- The custom error enum `DemoError` of `result_demo.rs`. -/
inductive DemoError where
  | Io : IoError → DemoError
  | Parse : ParseIntError → DemoError
  | BusinessRule : String → DemoError
deriving DecidableEq, Repr

/-- `impl Display for DemoError` (lines 15-23 of `result_demo.rs`):
`"IO error: {}"`, `"Parse error: {}"`, `"Business error: {}"`. -/
def DemoError.describe : DemoError → String
  | .Io e => "IO error: " ++ e.describe
  | .Parse e => "Parse error: " ++ e.describe
  | .BusinessRule msg => "Business error: " ++ msg

/-- `impl Error for DemoError`, method `source`: the wrapped lower-level error
for `Io`/`Parse`, `none` for `BusinessRule`. -/
def DemoError.cause : DemoError → Option (IoError ⊕ ParseIntError)
  | .Io e => some (Sum.inl e)
  | .Parse e => some (Sum.inr e)
  | .BusinessRule _ => none

/-- `impl From<io::Error> for DemoError`. -/
def DemoError.from_io (e : IoError) : DemoError := .Io e

/-- `impl From<ParseIntError> for DemoError`. -/
def DemoError.from_parse (e : ParseIntError) : DemoError := .Parse e

/-- The file system seen by the demo: a map from paths to optional contents.
`none` means the path cannot be opened. -/
def FS : Type := String → Option String

/-- The `io::Error` produced by `File::open` on a missing path. -/
def fileNotFound : IoError := ⟨"No such file or directory (os error 2)"⟩

/-- `File::open(path)?.read_to_string(&mut buf)?` as one step: the file's
contents on success, an `io::Error` when the path cannot be opened. -/
def readFile (fs : FS) (path : String) : RustResult String IoError :=
  match fs path with
  | some content => .ok content
  | none => .err fileNotFound

/-- Body of `demonstrate_question_mark_operator` with the parsed string as a
parameter: parse the string as `i32` (`?` wraps failures via
`From<ParseIntError>`), read `src/main.rs` (`?` wraps failures via
`From<io::Error>`), then fail with the business rule on an even number. -/
def demoParseAndCheck (fs : FS) (s : String) : RustResult Unit DemoError :=
  match parseI32 s with
  | .err e => .err (DemoError.from_parse e)
  | .ok n =>
    match readFile fs "src/main.rs" with
    | .err e => .err (DemoError.from_io e)
    | .ok _content =>
      if n.tmod 2 = 0 then .err (.BusinessRule "数字不能是偶数")
      else .ok ()

/-- `demonstrate_question_mark_operator` as written: the input is the
hardcoded `"123"`. -/
def demonstrate_question_mark_operator (fs : FS) : RustResult Unit DemoError :=
  demoParseAndCheck fs "123"

/-- `read_number_from_file` (lines 133-139 of `result_demo.rs`): read the
file, trim, parse as `u32`; every `?` wraps the failure through the
registered `From` conversion. -/
def read_number_from_file (fs : FS) (path : String) :
    RustResult Nat DemoError :=
  match readFile fs path with
  | .err e => .err (DemoError.from_io e)
  | .ok buf =>
    match parseU32 buf.trim with
    | .err e => .err (DemoError.from_parse e)
    | .ok n => .ok n

/-- Spec-worded counterpart for the round-trip claim: the same function with
the propagation shorthand on the parse step replaced by a manual match that
returns the failure wrapped by `DemoError::Parse` (the registered conversion
`ErrorKind::from_parse`). -/
def read_number_from_file_manual (fs : FS) (path : String) :
    RustResult Nat DemoError :=
  match readFile fs path with
  | .err e => .err (DemoError.from_io e)
  | .ok buf =>
    match parseU32 buf.trim with
    | .err e => .err (DemoError.Parse e)
    | .ok n => .ok n

/-- `Box<dyn Error>` for this program: the closed set of concrete error
values the sources ever box, kept with their displayable description. -/
inductive DynError where
  | io : IoError → DynError
  | parse : ParseIntError → DynError
deriving DecidableEq, Repr

/-- `Display` through the erased `dyn Error`. -/
def DynError.describe : DynError → String
  | .io e => e.describe
  | .parse e => e.describe

/-- `read_number_generic` (lines 142-146 of `result_demo.rs`): the same steps
as `read_number_from_file`, with each failure erased to `Box<dyn Error>`. -/
def read_number_generic (fs : FS) (path : String) : RustResult Nat DynError :=
  match readFile fs path with
  | .err e => .err (DynError.io e)
  | .ok buf =>
    match parseU32 buf.trim with
    | .err e => .err (DynError.parse e)
    | .ok n => .ok n

/-- `test` in `main.rs` (lines 8-11): unconditionally returns
`Err(IoError::new(ErrorKind::Other, "some error").into())`. -/
def test : RustResult Int DynError := .err (.io ⟨"some error"⟩)

/-- How a process run ends: normal termination with the unwrapped value, or a
panic (which exits with a non-zero status). -/
inductive ProcessOutcome where
  | normal : Int → ProcessOutcome
  | panicked : String → ProcessOutcome
deriving DecidableEq, Repr

/-- `Result::unwrap` at the process boundary: the value on `Ok`, a panic
carrying the failure's description on `Err`. -/
def unwrapOutcome (r : RustResult Int DynError) : ProcessOutcome :=
  match r with
  | .ok v => .normal v
  | .err e =>
    .panicked ("called Result::unwrap() on an Err value: " ++ e.describe)

/-- `main` in `main.rs` (lines 4-6): `let s: i32 = test().unwrap();`. -/
def main_outcome : ProcessOutcome := unwrapOutcome test

/-- `std::num::ParseFloatError`, up to its `Display` text. -/
structure ParseFloatError where
  msg : String
deriving DecidableEq, Repr

/-- Split a leading run of decimal digits off a character list. -/
def spanDigits : List Char → List Nat × List Char
  | [] => ([], [])
  | c :: cs =>
    match digitVal c with
    | some d =>
      let (ds, rest) := spanDigits cs
      (d :: ds, rest)
    | none => ([], c :: cs)

/-- Value of a digit run read most-significant first. -/
def digitsToNat (ds : List Nat) : Nat :=
  ds.foldl (fun a d => a * 10 + d) 0

/-- Exponent part of a float literal after `e`/`E`: optional sign then at
least one digit, consuming the whole rest. -/
def parseExp (cs : List Char) : Option Int :=
  let (neg, body) :=
    match cs with
    | '+' :: rest => (false, rest)
    | '-' :: rest => (true, rest)
    | _ => (false, cs)
  let (es, rest) := spanDigits body
  if es = [] ∨ rest ≠ [] then none
  else some (if neg then -(digitsToNat es : Int) else (digitsToNat es : Int))

/-- Unsigned significand and exponent of a float literal:
`Digits [. [Digits]] | . Digits`, optionally followed by `e`/`E` exponent.
The value is the exact rational the literal denotes. -/
def parseSignificand (cs : List Char) : RustResult ℚ ParseFloatError :=
  let fail : RustResult ℚ ParseFloatError := .err ⟨"invalid float literal"⟩
  let (ip, r1) := spanDigits cs
  let (fp, r2) :=
    match r1 with
    | '.' :: rest => spanDigits rest
    | _ => ([], r1)
  if ip = [] ∧ fp = [] then fail
  else
    let mant : ℚ :=
      (digitsToNat ip : ℚ) + (digitsToNat fp : ℚ) / ((10 : ℚ) ^ fp.length)
    match r2 with
    | [] => .ok mant
    | 'e' :: rest =>
      match parseExp rest with
      | some ex => .ok (mant * (10 : ℚ) ^ ex)
      | none => fail
    | 'E' :: rest =>
      match parseExp rest with
      | some ex => .ok (mant * (10 : ℚ) ^ ex)
      | none => fail
    | _ => fail

/-- `str::parse::<f64>`, modelled over exact rationals: the finite-literal
grammar (optional sign, significand, optional exponent) evaluated exactly.
The non-finite literals `inf`/`NaN` and rounding to the nearest double are
outside the model; every value the demo parses and computes with (`"5"`,
`"0"`, and `1.0/5.0 == 0.2`) is exact in `f64` as well. -/
def parseF64 (s : String) : RustResult ℚ ParseFloatError :=
  match s.toList with
  | '+' :: rest => parseSignificand rest
  | '-' :: rest => (parseSignificand rest).map (fun q => -q)
  | cs => parseSignificand cs

/-- `reciprocal` (lines 125-126 of `result_demo.rs`): fails with
`"除数不能为 0"` on zero, otherwise returns `1.0 / x`. -/
def reciprocal (x : ℚ) : RustResult ℚ String :=
  if x = 0 then .err "除数不能为 0" else .ok (1 / x)

/-- The `and_then` chain of `demonstrate_combinators` at input `s`:
`s.parse::<f64>().map_err(|_| "不是数字").and_then(reciprocal)`. -/
def chainedReciprocal (s : String) : RustResult ℚ String :=
  ((parseF64 s).mapErr (fun _ => "不是数字")).andThen reciprocal

/-- A concrete file system for witnesses: `src/main.rs` exists with a fixed
body, every other path is missing. -/
def demoFs : FS :=
  fun p => if p = "src/main.rs" then some "fn main()" else none

/-- C1: `and_then` short-circuits on a failure. `Failure(e).and_then(f)` equals
`Failure(e)` unchanged, and the result does not depend on `f` (so `f` is never
invoked: replacing `f` with any other function `g` gives the same result). -/
theorem andThen_short_circuits (α β ε : Type) (e : ε)
    (f g : α → RustResult β ε) :
    (RustResult.err e : RustResult α ε).andThen f = RustResult.err e ∧
    (RustResult.err e : RustResult α ε).andThen f =
      (RustResult.err e : RustResult α ε).andThen g :=
  ⟨rfl, rfl⟩

/-- C5: `map` on a failure is a no-op on the payload. `Failure(e).map(f)`
equals `Failure(e)` for every `f`, and the result does not depend on `f`
(the failure payload is never inspected or transformed). -/
theorem map_on_failure_noop (α β ε : Type) (e : ε) (f g : α → β) :
    (RustResult.err e : RustResult α ε).map f = RustResult.err e ∧
    (RustResult.err e : RustResult α ε).map f =
      (RustResult.err e : RustResult α ε).map g :=
  ⟨rfl, rfl⟩

/-- C2: the propagation-shorthand function `read_number_from_file` produces a
result equal to the version that manually matches on the parse result and
returns the failure wrapped by the registered conversion, which is
`DemoError::Parse`: `from_parse e = DemoError.Parse e`. -/
theorem question_mark_round_trip (fs : FS) (path : String) :
    read_number_from_file fs path = read_number_from_file_manual fs path ∧
    ∀ e : ParseIntError, DemoError.from_parse e = DemoError.Parse e :=
  ⟨rfl, fun _ => rfl⟩

/-- C3 counterexample: for `RuleViolation` (`DemoError::BusinessRule`) the
`Display` rendering is not the stored message verbatim — the code prepends
`"Business error: "`. -/
theorem describe_businessRule_not_verbatim :
    ¬ DemoError.describe (DemoError.BusinessRule "数字不能是偶数") =
      "数字不能是偶数" := by
  decide

/-- C3 amended: `describe` renders `BusinessRule msg` as
`"Business error: " ++ msg` (the stored message with a fixed prefix, nothing
else), and for `Io`/`Parse` it embeds the underlying cause's description
after a fixed prefix. -/
theorem describe_renders_each_variant (eio : IoError) (ep : ParseIntError)
    (msg : String) :
    DemoError.describe (.Io eio) = "IO error: " ++ eio.describe ∧
    DemoError.describe (.Parse ep) = "Parse error: " ++ ep.describe ∧
    DemoError.describe (.BusinessRule msg) = "Business error: " ++ msg :=
  ⟨rfl, rfl, rfl⟩

/-- C4: `cause` (`Error::source`) returns the wrapped lower-level error for
`Io`/`Parse` and nothing for `BusinessRule`. -/
theorem cause_returns_wrapped_error (eio : IoError) (ep : ParseIntError)
    (msg : String) :
    DemoError.cause (.Io eio) = some (Sum.inl eio) ∧
    DemoError.cause (.Parse ep) = some (Sum.inr ep) ∧
    DemoError.cause (.BusinessRule msg) = none :=
  ⟨rfl, rfl, rfl⟩

/-- C6: when `src/main.rs` is readable, the question-mark demo body parses
`"123"` to the odd number `123` and succeeds, while the even input `"124"`
propagates the `BusinessRule "数字不能是偶数"` failure. -/
theorem question_mark_demo_scenario (fs : FS) (c : String)
    (h : fs "src/main.rs" = some c) :
    parseI32 "123" = .ok 123 ∧
    demoParseAndCheck fs "123" = .ok () ∧
    demoParseAndCheck fs "124" = .err (.BusinessRule "数字不能是偶数") := by
  have hr : readFile fs "src/main.rs" = .ok c := by
    unfold readFile; rw [h]
  have h123 : parseI32 "123" = RustResult.ok 123 := by decide
  have h124 : parseI32 "124" = RustResult.ok 124 := by decide
  refine ⟨h123, ?_, ?_⟩
  · simp only [demoParseAndCheck, h123, hr]
    rw [if_neg (by decide : ¬ (123 : Int).tmod 2 = 0)]
  · simp only [demoParseAndCheck, h124, hr]
    rw [if_pos (by decide : (124 : Int).tmod 2 = 0)]

/-- C6 witness: the scenario at the concrete file system `demoFs`. -/
theorem question_mark_demo_scenario_witness :
    parseI32 "123" = .ok 123 ∧
    demoParseAndCheck demoFs "123" = .ok () ∧
    demoParseAndCheck demoFs "124" = .err (.BusinessRule "数字不能是偶数") :=
  question_mark_demo_scenario demoFs "fn main()" (by decide)

/-- C7: chaining `parse("5")` into `reciprocal` with `and_then` yields the
success value `0.2`, chaining `parse("0")` yields the failure
`"除数不能为 0"`, and `reciprocal` fails exactly when its input is zero. -/
theorem and_then_reciprocal_scenario :
    chainedReciprocal "5" = .ok 0.2 ∧
    chainedReciprocal "0" = .err "除数不能为 0" ∧
    ∀ x : ℚ, (reciprocal x).isErr = true ↔ x = 0 := by
  refine ⟨?_, ?_, ?_⟩
  · have h5 : parseF64 "5" =
        RustResult.ok ((5 : ℚ) + (0 : ℚ) / ((10 : ℚ) ^ (0 : ℕ))) := rfl
    have hv : (5 : ℚ) + (0 : ℚ) / ((10 : ℚ) ^ (0 : ℕ)) = 5 := by norm_num
    rw [hv] at h5
    show ((parseF64 "5").mapErr (fun _ => "不是数字")).andThen reciprocal =
      .ok 0.2
    rw [h5]
    show reciprocal 5 = .ok 0.2
    rw [reciprocal, if_neg (by norm_num : ¬ (5 : ℚ) = 0)]
    norm_num
  · have h0 : parseF64 "0" =
        RustResult.ok ((0 : ℚ) + (0 : ℚ) / ((10 : ℚ) ^ (0 : ℕ))) := rfl
    have hv : (0 : ℚ) + (0 : ℚ) / ((10 : ℚ) ^ (0 : ℕ)) = 0 := by norm_num
    rw [hv] at h0
    show ((parseF64 "0").mapErr (fun _ => "不是数字")).andThen reciprocal =
      .err "除数不能为 0"
    rw [h0]
    show reciprocal 0 = .err "除数不能为 0"
    rw [reciprocal, if_pos rfl]
  · intro x
    rw [reciprocal]
    by_cases h : x = 0
    · simp [h, RustResult.isErr]
    · simp [h, RustResult.isErr]

/-- C8: `test` returns a failure on every call — the boxed I/O error with
message `"some error"` — so `main`'s `unwrap` always panics and the process
never terminates normally. -/
theorem test_always_fails_so_main_panics :
    test = .err (.io ⟨"some error"⟩) ∧
    test.isErr = true ∧
    main_outcome =
      .panicked "called Result::unwrap() on an Err value: some error" ∧
    ∀ v, main_outcome ≠ ProcessOutcome.normal v :=
  ⟨rfl, rfl, rfl, fun _ h => ProcessOutcome.noConfusion h⟩

/-- C9: for every file system and path, `read_number_from_file` and
`read_number_generic` succeed with the same value: erasing the concrete
error type to a boxed opaque error does not change the success behavior. -/
theorem erased_and_concrete_agree_on_success (fs : FS) (path : String)
    (n : Nat) :
    read_number_from_file fs path = .ok n ↔
      read_number_generic fs path = .ok n := by
  unfold read_number_from_file read_number_generic
  cases hr : readFile fs path with
  | err e => simp
  | ok buf =>
    cases hp : parseU32 buf.trim with
    | err e => simp [hp]
    | ok m => simp [hp]

/-- C10: in `demonstrate_question_mark_operator` as written (hardcoded input
`"123"`), the `BusinessRule` branch is unreachable: for every file system the
result is either success or the I/O failure of the file-read step, and it is
never the `BusinessRule` error. -/
theorem businessRule_branch_unreachable (fs : FS) :
    (∀ msg, demonstrate_question_mark_operator fs ≠
      .err (.BusinessRule msg)) ∧
    (demonstrate_question_mark_operator fs = .ok () ∨
      demonstrate_question_mark_operator fs = .err (.Io fileNotFound)) := by
  have h123 : parseI32 "123" = RustResult.ok 123 := by decide
  cases hf : fs "src/main.rs" with
  | none =>
    have hr : readFile fs "src/main.rs" = .err fileNotFound := by
      unfold readFile; rw [hf]
    have hd : demonstrate_question_mark_operator fs =
        .err (.Io fileNotFound) := by
      simp only [demonstrate_question_mark_operator, demoParseAndCheck,
        h123, hr]
      rfl
    refine ⟨?_, Or.inr hd⟩
    intro msg hmsg
    rw [hd] at hmsg
    simp at hmsg
  | some c =>
    have hr : readFile fs "src/main.rs" = .ok c := by
      unfold readFile; rw [hf]
    have hd : demonstrate_question_mark_operator fs = .ok () := by
      simp only [demonstrate_question_mark_operator, demoParseAndCheck,
        h123, hr]
      rw [if_neg (by decide : ¬ (123 : Int).tmod 2 = 0)]
    refine ⟨?_, Or.inl hd⟩
    intro msg hmsg
    rw [hd] at hmsg
    exact RustResult.noConfusion hmsg
